import Mathlib

/-!
Verification of the truss-capacity scripts `AT_BB_HW02.py` (two hardcoded
material constants) and `AT_BB_HW02_04.py` (materials database).  Both
scripts run the same arithmetic pipeline over four fixed members:
geometry of the diamond assembly, force fractions, per-member capacity,
selection of the governing (weakest) member, allowable load, safety
factors and a ±1 % sensitivity pair.  Real-number arithmetic embeds the
scripts' float arithmetic; `round(x, n)` is embedded exactly.
-/

namespace Truss

/-- The four structural members of the fixed assembly. -/
inductive Member
  | ABCD
  | AC
  | EB
  | FD
  deriving DecidableEq

/-- Insertion (iteration) order of the member dictionary. -/
def members : List Member := [Member.ABCD, Member.AC, Member.EB, Member.FD]

/-- Source: `half_length = member_dict["length"]["AC"] / 2`. -/
noncomputable def half_length (len_AC : ℝ) : ℝ := len_AC / 2

/-- Source: `ABCD_side_length = member_dict["length"]["ABCD"]/4`. -/
noncomputable def ABCD_side_length (len_ABCD : ℝ) : ℝ := len_ABCD / 4

/-- The radicand `ABCD_side_length ** 2 - half_length ** 2`. -/
noncomputable def height_sq (len_ABCD len_AC : ℝ) : ℝ :=
  ABCD_side_length len_ABCD ^ 2 - half_length len_AC ^ 2

/-- Source: `ABCD_height = (side**2 - half**2)**(1/2)`.  Python's `** (1/2)`
returns the real square root for a nonnegative radicand and a non-real
complex number otherwise (which the rest of the script cannot consume);
the non-real case is embedded as `none`. -/
noncomputable def ABCD_height (len_ABCD len_AC : ℝ) : Option ℝ :=
  if 0 ≤ height_sq len_ABCD len_AC then some (Real.sqrt (height_sq len_ABCD len_AC))
  else none

/-- The value of `ABCD_height` on a feasible configuration (radicand ≥ 0). -/
noncomputable def heightVal (len_ABCD len_AC : ℝ) : ℝ :=
  Real.sqrt (height_sq len_ABCD len_AC)

/-- Source: `frac_x_F_AB = 2 * (ABCD_height/ABCD_side_length)`. -/
noncomputable def frac_x_F_AB (len_ABCD len_AC : ℝ) : ℝ :=
  2 * (heightVal len_ABCD len_AC / ABCD_side_length len_ABCD)

/-- Source: `frac_x_F_AC = ABCD_height / half_length`. -/
noncomputable def frac_x_F_AC (len_ABCD len_AC : ℝ) : ℝ :=
  heightVal len_ABCD len_AC / half_length len_AC

/-- The `fraction` mapping after the geometric fill-in: ABCD and AC get the
computed fractions, EB and FD keep their initial value 1. -/
noncomputable def fraction (len_ABCD len_AC : ℝ) : Member → ℝ
  | Member.ABCD => frac_x_F_AB len_ABCD len_AC
  | Member.AC => frac_x_F_AC len_ABCD len_AC
  | Member.EB => 1
  | Member.FD => 1

/-- Source: `member_csa = 3.1415926536 * (member_diameter**2) / 4`.  The
constant is the script's hardcoded ten-digit value for π. -/
noncomputable def member_csa (d : ℝ) : ℝ := 3.1415926536 * d ^ 2 / 4

/-- Source: `lowest_strength = min(member_dict["max_Q_load"].values())`,
Python's left fold of `min` over the insertion order ABCD, AC, EB, FD. -/
noncomputable def lowest_strength (q : Member → ℝ) : ℝ :=
  min (min (min (q Member.ABCD) (q Member.AC)) (q Member.EB)) (q Member.FD)

/-- Source: `first_failure_member = [key for key, val in ... if val == lowest_strength]`. -/
noncomputable def first_failure_member (q : Member → ℝ) : List Member :=
  members.filter fun m => decide (q m = lowest_strength q)

/-- Source: `allowable_load = lowest_strength / safety_factor`. -/
noncomputable def allowable_load (q : Member → ℝ) (sf : ℝ) : ℝ :=
  lowest_strength q / sf

/-- Source: `cur_safety_factor = member_max_Q / allowable_load`. -/
noncomputable def cur_safety_factor (q : Member → ℝ) (sf : ℝ) (m : Member) : ℝ :=
  q m / allowable_load q sf

/-- Source: `SF_up_one = member_max_Q / (allowable_load * 1.01)`. -/
noncomputable def SF_up_one (q : Member → ℝ) (sf : ℝ) (m : Member) : ℝ :=
  q m / (allowable_load q sf * 1.01)

/-- Source: `SF_down_one = member_max_Q / (allowable_load * .99)`. -/
noncomputable def SF_down_one (q : Member → ℝ) (sf : ℝ) (m : Member) : ℝ :=
  q m / (allowable_load q sf * 0.99)

/-- Python's `round(x, n)` to `n` decimal places (round-half-to-even and
round-half-up agree on every value this development evaluates). -/
noncomputable def roundTo (n : ℕ) (x : ℝ) : ℝ := (round (x * 10 ^ n) : ℤ) / 10 ^ n

/-- Source: `sensitivity = [round(((cur - SF_up)/cur) * 100, 4),
round(((cur - SF_down)/cur) * 100, 4)]`. -/
noncomputable def sensitivity (q : Member → ℝ) (sf : ℝ) (m : Member) : ℝ × ℝ :=
  (roundTo 4 ((cur_safety_factor q sf m - SF_up_one q sf m) / cur_safety_factor q sf m * 100),
   roundTo 4 ((cur_safety_factor q sf m - SF_down_one q sf m) / cur_safety_factor q sf m * 100))

namespace HW02

/-- Source: `aluminum_sigma_U = 38  # ksi`. -/
noncomputable def aluminum_sigma_U : ℝ := 38

/-- Source: `steel_sigma_U = 70  # ksi`. -/
noncomputable def steel_sigma_U : ℝ := 70

/-- Source: `if member_material == "steel": u_strength = steel_sigma_U
else: u_strength = aluminum_sigma_U`. -/
noncomputable def u_strength (mat : String) : ℝ :=
  if mat = "steel" then steel_sigma_U else aluminum_sigma_U

/-- The user-editable inputs of `AT_BB_HW02.py`. -/
structure Config where
  len_ABCD : ℝ
  len_AC : ℝ
  diameter : Member → ℝ
  material : Member → String
  safety_factor : ℝ

/-- Source: `member_dict["max_force"][member] = u_strength * member_csa`. -/
noncomputable def max_force (c : Config) (m : Member) : ℝ :=
  u_strength (c.material m) * member_csa (c.diameter m)

/-- Source: `member_dict["max_Q_load"][member] = fraction * u_strength * member_csa`. -/
noncomputable def max_Q_load (c : Config) (m : Member) : ℝ :=
  fraction c.len_ABCD c.len_AC m * u_strength (c.material m) * member_csa (c.diameter m)

end HW02

/-- One row of the materials table `Expanded_Engineering_Materials_Properties.csv`
as `AT_BB_HW02_04.py` consumes it. -/
structure MaterialRow where
  name : String
  density : ℝ
  cost_per_lb : ℝ
  yield_strength : ℝ

/-- Source: `df.loc[df["Material"] == name]` followed by `.values[0]`: the
first row whose Material column equals the name; `none` when the selection
is empty (the script then dies with an IndexError on `.values[0]`). -/
def lookupRow (table : List MaterialRow) (name : String) : Option MaterialRow :=
  table.find? fun r => decide (r.name = name)

/-- The user-editable inputs of `AT_BB_HW02_04.py`. -/
structure Config4 where
  len : Member → ℝ
  diameter : Member → ℝ
  material : Member → String
  table : List MaterialRow
  safety_factor : ℝ

namespace HW04

/-- Source: `member_volume = length * member_csa`. -/
noncomputable def member_volume (c : Config4) (m : Member) : ℝ :=
  c.len m * member_csa (c.diameter m)

/-- Source: `member_density = df.loc[...]["Density (lb/in³)"].values[0]`. -/
noncomputable def member_density (c : Config4) (m : Member) : Option ℝ :=
  (lookupRow c.table (c.material m)).map MaterialRow.density

/-- Source: `cost_p_lb = df.loc[...]["Cost per lb ($)"].values[0]`. -/
noncomputable def cost_p_lb (c : Config4) (m : Member) : Option ℝ :=
  (lookupRow c.table (c.material m)).map MaterialRow.cost_per_lb

/-- Source: `member_u_strength = df.loc[...]["Yield Strength (ksi)"].values[0]`. -/
noncomputable def member_u_strength (c : Config4) (m : Member) : Option ℝ :=
  (lookupRow c.table (c.material m)).map MaterialRow.yield_strength

/-- Source: `member_weight = member_volume * member_density`. -/
noncomputable def member_weight (c : Config4) (m : Member) : Option ℝ :=
  (member_density c m).map fun d => member_volume c m * d

/-- Source: `member_dict['cost'][member] = member_weight * cost_p_lb`. -/
noncomputable def member_cost (c : Config4) (m : Member) : Option ℝ :=
  (member_weight c m).bind fun w => (cost_p_lb c m).map fun cp => w * cp

/-- Source: `member_dict["max_force"][member] = member_u_strength * member_csa`. -/
noncomputable def max_force (c : Config4) (m : Member) : Option ℝ :=
  (member_u_strength c m).map fun s => s * member_csa (c.diameter m)

/-- Source: `member_dict["max_Q_load"][member] = fraction * member_u_strength * member_csa`. -/
noncomputable def max_Q_load (c : Config4) (m : Member) : Option ℝ :=
  (member_u_strength c m).map fun s =>
    fraction (c.len Member.ABCD) (c.len Member.AC) m * s * member_csa (c.diameter m)

end HW04

/-! ## Helper lemmas shared by several claims -/

theorem lowest_strength_le (q : Member → ℝ) (m : Member) : lowest_strength q ≤ q m := by
  cases m
  · exact le_trans (min_le_left _ _) (le_trans (min_le_left _ _) (min_le_left _ _))
  · exact le_trans (min_le_left _ _) (le_trans (min_le_left _ _) (min_le_right _ _))
  · exact le_trans (min_le_left _ _) (min_le_right _ _)
  · exact min_le_right _ _

theorem lowest_strength_eq_some (q : Member → ℝ) : ∃ m, lowest_strength q = q m := by
  unfold lowest_strength
  rcases min_choice (min (min (q Member.ABCD) (q Member.AC)) (q Member.EB)) (q Member.FD)
    with h | h
  · rw [h]
    rcases min_choice (min (q Member.ABCD) (q Member.AC)) (q Member.EB) with h2 | h2
    · rw [h2]
      rcases min_choice (q Member.ABCD) (q Member.AC) with h3 | h3
      · exact ⟨Member.ABCD, h3⟩
      · exact ⟨Member.AC, h3⟩
    · exact ⟨Member.EB, h2⟩
  · exact ⟨Member.FD, h⟩

theorem mem_first_failure_iff (q : Member → ℝ) (m : Member) :
    m ∈ first_failure_member q ↔ q m = lowest_strength q := by
  unfold first_failure_member
  rw [List.mem_filter]
  cases m <;> simp [members]

/-! ## Claim theorems -/

/-- C1: for lengths with 0 < AC and AC < 2·(ABCD/4), the geometry resolver
computes half_length = AC/2, side = ABCD/4, height = √(side² − half²), and
force fractions 2·height/side for ABCD, height/half_length for AC, and 1
for EB and FD. -/
theorem C1_geometry_force_fractions (lABCD lAC : ℝ) (hpos : 0 < lAC)
    (hfeas : lAC < 2 * (lABCD / 4)) :
    half_length lAC = lAC / 2 ∧
    ABCD_side_length lABCD = lABCD / 4 ∧
    ABCD_height lABCD lAC =
      some (Real.sqrt (ABCD_side_length lABCD ^ 2 - half_length lAC ^ 2)) ∧
    heightVal lABCD lAC = Real.sqrt (ABCD_side_length lABCD ^ 2 - half_length lAC ^ 2) ∧
    fraction lABCD lAC Member.ABCD = 2 * heightVal lABCD lAC / ABCD_side_length lABCD ∧
    fraction lABCD lAC Member.AC = heightVal lABCD lAC / half_length lAC ∧
    fraction lABCD lAC Member.EB = 1 ∧
    fraction lABCD lAC Member.FD = 1 := by
  have hsq : 0 ≤ height_sq lABCD lAC := by
    unfold height_sq ABCD_side_length half_length
    nlinarith
  refine ⟨rfl, rfl, ?_, rfl, ?_, rfl, rfl, rfl⟩
  · unfold ABCD_height
    rw [if_pos hsq]
    rfl
  · show frac_x_F_AB lABCD lAC = _
    unfold frac_x_F_AB
    ring

theorem C1_geometry_force_fractions_witness :
    ABCD_height 20 6 = some (Real.sqrt (ABCD_side_length 20 ^ 2 - half_length 6 ^ 2)) ∧
    fraction 20 6 Member.EB = 1 :=
  ⟨(C1_geometry_force_fractions 20 6 (by norm_num) (by norm_num)).2.2.1,
   (C1_geometry_force_fractions 20 6 (by norm_num) (by norm_num)).2.2.2.2.2.2.1⟩

/-- C6 as frozen is refuted at the boundary itself: with ABCD = 60 and
AC = 30 the ratio AC ≥ 2·(ABCD/4) holds, yet the square root succeeds and
returns height 0 — no domain error occurs there. -/
theorem C6_boundary_counterexample :
    (30 : ℝ) ≥ 2 * (60 / 4) ∧ ABCD_height 60 30 = some 0 := by
  constructor
  · norm_num
  · have h : height_sq 60 30 = 0 := by
      unfold height_sq ABCD_side_length half_length
      norm_num
    unfold ABCD_height
    rw [if_pos (le_of_eq h.symm), h, Real.sqrt_zero]

/-- C6 (amended): with 0 ≤ ABCD and AC strictly beyond the geometric limit
2·(ABCD/4), the radicand side² − half² is negative and the height
computation yields no real value (none, Python's non-real result); the
script performs no validation before the computation. -/
theorem C6_infeasible_geometry_no_real_height (lABCD lAC : ℝ) (hA : 0 ≤ lABCD)
    (h : 2 * (lABCD / 4) < lAC) : ABCD_height lABCD lAC = none := by
  have hneg : height_sq lABCD lAC < 0 := by
    unfold height_sq ABCD_side_length half_length
    have h1 : lABCD / 4 < lAC / 2 := by linarith
    have h2 : (lABCD / 4) ^ 2 < (lAC / 2) ^ 2 := by
      apply sq_lt_sq' <;> linarith
    linarith
  unfold ABCD_height
  rw [if_neg (not_le.mpr hneg)]

theorem C6_infeasible_geometry_no_real_height_witness :
    ABCD_height 60 40 = none :=
  C6_infeasible_geometry_no_real_height 60 40 (by norm_num) (by norm_num)

/-- C9: in the two-constant variant any material string other than exactly
"steel" — unrecognized and misspelled names included — resolves to the
aluminum constant 38 ksi; `u_strength` is a total function, so no error is
raised and nothing is printed. -/
theorem C9_nonsteel_gets_aluminum (mat : String) (h : mat ≠ "steel") :
    HW02.u_strength mat = 38 ∧ HW02.u_strength mat = HW02.aluminum_sigma_U := by
  unfold HW02.u_strength
  rw [if_neg h]
  exact ⟨rfl, rfl⟩

theorem C9_nonsteel_gets_aluminum_witness :
    HW02.u_strength "Steel" = 38 :=
  (C9_nonsteel_gets_aluminum "Steel" (by decide)).1

/-- C7 as frozen is refuted: an unrecognized material name is never
reported by a console message in either variant.  The two-constant variant
silently resolves "Unobtanium" to the aluminum constant — 38 ksi, not a
zero strength — and the database variant's row lookup simply comes back
empty (a fatal IndexError on `.values[0]`, not a printed message). -/
theorem C7_unrecognized_material_counterexample :
    HW02.u_strength "Unobtanium" = HW02.aluminum_sigma_U ∧
    HW02.aluminum_sigma_U ≠ 0 ∧
    lookupRow [MaterialRow.mk "Stainless 304" 0.289 2.5 31.2] "Unobtanium" = none := by
  refine ⟨?_, ?_, ?_⟩
  · unfold HW02.u_strength
    rw [if_neg (by decide)]
  · unfold HW02.aluminum_sigma_U
    norm_num
  · rfl

/-- C7 (amended): a member with an unrecognized material name triggers no
message in either variant: the two-constant variant silently uses the
aluminum constant (38 ksi, not zero), and in the database variant the row
lookup finds nothing (none), after which the script dies with an
IndexError rather than printing anything. -/
theorem C7_unrecognized_material_behavior (mat : String) (h : mat ≠ "steel")
    (table : List MaterialRow) (habs : ∀ r ∈ table, r.name ≠ mat) :
    HW02.u_strength mat = HW02.aluminum_sigma_U ∧
    lookupRow table mat = none := by
  constructor
  · unfold HW02.u_strength
    rw [if_neg h]
  · unfold lookupRow
    rw [List.find?_eq_none]
    intro r hr
    simpa using habs r hr

/-- C2: cross-sectional area, max force, max load (both variants) and, in
the database variant, weight and cost follow the source formulas: area =
π·d²/4 with the script's hardcoded π constant, max force = strength·area,
max load = fraction·max force, weight = length·area·density, cost =
weight·cost-per-pound. -/
theorem C2_capacity_formulas (c : HW02.Config) (c4 : Config4) (m : Member)
    (r : MaterialRow) (hd : 0 < c.diameter m) (hd4 : 0 < c4.diameter m)
    (hlen : 0 < c4.len m)
    (hrow : lookupRow c4.table (c4.material m) = some r) :
    member_csa (c.diameter m) = 3.1415926536 * c.diameter m ^ 2 / 4 ∧
    HW02.max_force c m = HW02.u_strength (c.material m) * member_csa (c.diameter m) ∧
    HW02.max_Q_load c m = fraction c.len_ABCD c.len_AC m * HW02.max_force c m ∧
    HW04.max_force c4 m = some (r.yield_strength * member_csa (c4.diameter m)) ∧
    HW04.max_Q_load c4 m =
      some (fraction (c4.len Member.ABCD) (c4.len Member.AC) m *
        (r.yield_strength * member_csa (c4.diameter m))) ∧
    HW04.member_weight c4 m =
      some (c4.len m * member_csa (c4.diameter m) * r.density) ∧
    HW04.member_cost c4 m =
      some (c4.len m * member_csa (c4.diameter m) * r.density * r.cost_per_lb) := by
  refine ⟨rfl, rfl, ?_, ?_, ?_, ?_, ?_⟩
  · unfold HW02.max_Q_load HW02.max_force
    ring
  · unfold HW04.max_force HW04.member_u_strength
    rw [hrow]
    rfl
  · unfold HW04.max_Q_load HW04.member_u_strength
    rw [hrow]
    simp only [Option.map_some']
    congr 1
    ring
  · unfold HW04.member_weight HW04.member_density HW04.member_volume
    rw [hrow]
    rfl
  · unfold HW04.member_cost HW04.member_weight HW04.member_density HW04.member_volume
      HW04.cost_p_lb
    rw [hrow]
    rfl

/-- A sample materials row, config of the two-constant variant and config of
the database variant, used to instantiate hypothesised theorems. -/
noncomputable def demoRow : MaterialRow :=
  { name := "Stainless 304", density := 0.289, cost_per_lb := 2.5, yield_strength := 31.2 }

noncomputable def demoConfig : HW02.Config :=
  { len_ABCD := 60, len_AC := 24, diameter := fun _ => 1 / 2,
    material := fun _ => "steel", safety_factor := 3 }

noncomputable def demoConfig4 : Config4 :=
  { len := fun _ => 36, diameter := fun _ => 1 / 2,
    material := fun _ => "Stainless 304", table := [demoRow], safety_factor := 3 }

theorem C2_capacity_formulas_witness :
    HW02.max_force demoConfig Member.ABCD =
      HW02.u_strength (demoConfig.material Member.ABCD) *
        member_csa (demoConfig.diameter Member.ABCD) ∧
    HW04.member_weight demoConfig4 Member.ABCD =
      some (demoConfig4.len Member.ABCD * member_csa (demoConfig4.diameter Member.ABCD) *
        demoRow.density) :=
  ⟨(C2_capacity_formulas demoConfig demoConfig4 Member.ABCD demoRow
      (by norm_num [demoConfig]) (by norm_num [demoConfig4]) (by norm_num [demoConfig4])
      rfl).2.1,
   (C2_capacity_formulas demoConfig demoConfig4 Member.ABCD demoRow
      (by norm_num [demoConfig]) (by norm_num [demoConfig4]) (by norm_num [demoConfig4])
      rfl).2.2.2.2.2.1⟩

/-- The scenario configuration of the spec's tie test: lengths ABCD = 60 and
AC = 15, all members steel, diameters 3/8 for ABCD and AC, 1/2 for EB and
FD, target safety factor 2.5. -/
noncomputable def scenario3 : HW02.Config :=
  { len_ABCD := 60, len_AC := 15,
    diameter := fun m => match m with
      | Member.ABCD => 3 / 8
      | Member.AC => 3 / 8
      | Member.EB => 1 / 2
      | Member.FD => 1 / 2,
    material := fun _ => "steel", safety_factor := 5 / 2 }

/-- The max_Q_load mapping the scenario produces. -/
noncomputable def scenario3_Q : Member → ℝ := HW02.max_Q_load scenario3

/-- C3: the governing max load is the minimum of the four member loads, the
failure set holds exactly the members achieving it (ties in full), and the
allowable load is that minimum over the target factor; in the tie scenario
(ABCD = 60, AC = 15, all steel, 3/8 and 1/2 diameters, factor 2.5) ABCD
and AC share the lowest load, both are in the failure set, and the
allowable load is the shared minimum divided by 2.5. -/
theorem C3_governing_minimum_ties_and_allowable (q : Member → ℝ) (sf : ℝ) :
    ((∀ m, lowest_strength q ≤ q m) ∧
     (∃ m, lowest_strength q = q m) ∧
     (∀ m, m ∈ first_failure_member q ↔ q m = lowest_strength q) ∧
     allowable_load q sf = lowest_strength q / sf) ∧
    (Member.AC ∈ first_failure_member scenario3_Q ∧
     Member.ABCD ∈ first_failure_member scenario3_Q ∧
     scenario3_Q Member.AC = scenario3_Q Member.ABCD ∧
     scenario3_Q Member.ABCD = lowest_strength scenario3_Q ∧
     allowable_load scenario3_Q (5 / 2) = scenario3_Q Member.ABCD / (5 / 2)) := by
  have hACeq : scenario3_Q Member.AC = scenario3_Q Member.ABCD := by
    simp only [scenario3_Q, HW02.max_Q_load, scenario3, fraction, frac_x_F_AB, frac_x_F_AC,
      half_length, ABCD_side_length]
    ring
  have hb : heightVal 60 15 < 40 / 3 := by
    unfold heightVal
    rw [Real.sqrt_lt' (by norm_num : (0 : ℝ) < 40 / 3)]
    unfold height_sq ABCD_side_length half_length
    norm_num
  have hnn : (0 : ℝ) ≤ heightVal 60 15 := Real.sqrt_nonneg _
  have hAE : scenario3_Q Member.ABCD < scenario3_Q Member.EB := by
    simp only [scenario3_Q, HW02.max_Q_load, scenario3, fraction, frac_x_F_AB, half_length,
      ABCD_side_length, member_csa, HW02.u_strength, HW02.steel_sigma_U, if_pos]
    nlinarith [hb, hnn]
  have hEF : scenario3_Q Member.EB = scenario3_Q Member.FD := rfl
  have hAF : scenario3_Q Member.ABCD < scenario3_Q Member.FD := hEF ▸ hAE
  have hlow : lowest_strength scenario3_Q = scenario3_Q Member.ABCD := by
    unfold lowest_strength
    rw [hACeq, min_self, min_eq_left (le_of_lt hAE), min_eq_left (le_of_lt hAF)]
  refine ⟨⟨lowest_strength_le q, lowest_strength_eq_some q, mem_first_failure_iff q, rfl⟩,
    ?_, ?_, hACeq, hlow.symm, ?_⟩
  · exact (mem_first_failure_iff scenario3_Q Member.AC).mpr (by rw [hACeq, hlow])
  · exact (mem_first_failure_iff scenario3_Q Member.ABCD).mpr hlow.symm
  · unfold allowable_load
    rw [hlow]

/-- C4: any member achieving the governing minimum has safety factor equal
to the configured target, exactly and after the reported rounding, given
positive max loads and a positive target factor. -/
theorem C4_governing_safety_factor_is_target (q : Member → ℝ) (sf : ℝ) (g : Member)
    (hsf : 0 < sf) (hq : ∀ m, 0 < q m) (hg : g ∈ first_failure_member q) :
    cur_safety_factor q sf g = sf ∧
    roundTo 3 (cur_safety_factor q sf g) = roundTo 3 sf := by
  have hgl : q g = lowest_strength q := (mem_first_failure_iff q g).mp hg
  have hlpos : 0 < lowest_strength q := by
    obtain ⟨m, hm⟩ := lowest_strength_eq_some q
    rw [hm]
    exact hq m
  have h1 : cur_safety_factor q sf g = sf := by
    unfold cur_safety_factor allowable_load
    rw [hgl]
    field_simp
  exact ⟨h1, by rw [h1]⟩

theorem C4_governing_safety_factor_is_target_witness :
    cur_safety_factor (fun _ => 1) 2 Member.ABCD = 2 :=
  (C4_governing_safety_factor_is_target (fun _ => 1) 2 Member.ABCD (by norm_num)
    (fun _ => by norm_num)
    (by
      rw [mem_first_failure_iff]
      simp [lowest_strength])).1

/-- C5: the sensitivity pair is the ±1 % recomputation rounded to four
decimals, and scaling the allowable load up by 1 % strictly lowers every
member's safety factor while scaling it down strictly raises it, given a
positive max load and a positive allowable load. -/
theorem C5_sensitivity_definition_and_monotonicity (q : Member → ℝ) (sf : ℝ)
    (m : Member) (hq : 0 < q m) (ha : 0 < allowable_load q sf) :
    sensitivity q sf m =
      (roundTo 4 ((cur_safety_factor q sf m - SF_up_one q sf m) /
          cur_safety_factor q sf m * 100),
       roundTo 4 ((cur_safety_factor q sf m - SF_down_one q sf m) /
          cur_safety_factor q sf m * 100)) ∧
    SF_up_one q sf m < cur_safety_factor q sf m ∧
    cur_safety_factor q sf m < SF_down_one q sf m := by
  refine ⟨rfl, ?_, ?_⟩
  · unfold SF_up_one cur_safety_factor
    apply div_lt_div_of_pos_left hq ha
    nlinarith
  · unfold SF_down_one cur_safety_factor
    apply div_lt_div_of_pos_left hq (by nlinarith)
    nlinarith

theorem C5_sensitivity_definition_and_monotonicity_witness :
    SF_up_one (fun _ => 1) 1 Member.ABCD < cur_safety_factor (fun _ => 1) 1 Member.ABCD :=
  (C5_sensitivity_definition_and_monotonicity (fun _ => 1) 1 Member.ABCD (by norm_num)
    (by norm_num [allowable_load, lowest_strength])).2.1

/-- C10: the nominal safety factor cancels out of the percentage-change
formula, so every member's reported sensitivity pair is the same constant
(0.9901, −1.0101), independent of member properties, materials and
loads. -/
theorem C10_sensitivity_is_constant_pair (q : Member → ℝ) (sf : ℝ) (m : Member)
    (hq : 0 < q m) (ha : 0 < allowable_load q sf) :
    sensitivity q sf m = (9901 / 10000, -10101 / 10000) := by
  have hSF : 0 < cur_safety_factor q sf m := div_pos hq ha
  have hne : cur_safety_factor q sf m ≠ 0 := ne_of_gt hSF
  have hup : SF_up_one q sf m = cur_safety_factor q sf m / 1.01 := by
    unfold SF_up_one cur_safety_factor
    rw [div_div]
  have hdn : SF_down_one q sf m = cur_safety_factor q sf m / 0.99 := by
    unfold SF_down_one cur_safety_factor
    rw [div_div]
  have e1 : (cur_safety_factor q sf m - SF_up_one q sf m) /
      cur_safety_factor q sf m * 100 = 100 / 101 := by
    rw [hup]
    field_simp
    ring
  have e2 : (cur_safety_factor q sf m - SF_down_one q sf m) /
      cur_safety_factor q sf m * 100 = -(100 / 99) := by
    rw [hdn]
    field_simp
    ring
  have r1 : roundTo 4 ((100 : ℝ) / 101) = 9901 / 10000 := by
    unfold roundTo
    have : round (((100 : ℝ) / 101) * 10 ^ 4) = 9901 := by
      rw [round_eq]
      apply Int.floor_eq_iff.mpr
      constructor <;> norm_num
    rw [this]
    norm_num
  have r2 : roundTo 4 (-((100 : ℝ) / 99)) = -10101 / 10000 := by
    unfold roundTo
    have : round ((-((100 : ℝ) / 99)) * 10 ^ 4) = -10101 := by
      rw [round_eq]
      apply Int.floor_eq_iff.mpr
      constructor <;> norm_num
    rw [this]
    norm_num
  unfold sensitivity
  rw [e1, e2, r1, r2]

theorem C10_sensitivity_is_constant_pair_witness :
    sensitivity (fun _ => 2) 1 Member.AC = (9901 / 10000, -10101 / 10000) :=
  C10_sensitivity_is_constant_pair (fun _ => 2) 1 Member.AC (by norm_num)
    (by norm_num [allowable_load, lowest_strength])

/-- Keys of each per-property sub-dictionary of `member_dict` as the literal
of `AT_BB_HW02.py` writes them: the length mapping holds only ABCD and AC. -/
def HW02.length_keys : List Member := [Member.ABCD, Member.AC]

def HW02.diameter_keys : List Member := [Member.ABCD, Member.AC, Member.EB, Member.FD]

def HW02.material_keys : List Member := [Member.ABCD, Member.AC, Member.EB, Member.FD]

def HW02.points_keys : List Member := [Member.ABCD, Member.AC, Member.EB, Member.FD]

def HW02.fraction_keys : List Member := [Member.ABCD, Member.AC, Member.EB, Member.FD]

def HW02.max_force_keys : List Member := [Member.ABCD, Member.AC, Member.EB, Member.FD]

def HW02.max_Q_load_keys : List Member := [Member.ABCD, Member.AC, Member.EB, Member.FD]

def HW02.safety_factor_keys : List Member := [Member.ABCD, Member.AC, Member.EB, Member.FD]

def HW02.sensitivity_keys : List Member := [Member.ABCD, Member.AC, Member.EB, Member.FD]

/-- Keys of each per-property sub-dictionary of `member_dict` as the literal
of `AT_BB_HW02_04.py` writes them: here the length mapping holds all four. -/
def HW04.length_keys : List Member := [Member.ABCD, Member.AC, Member.EB, Member.FD]

def HW04.diameter_keys : List Member := [Member.ABCD, Member.AC, Member.EB, Member.FD]

def HW04.material_keys : List Member := [Member.ABCD, Member.AC, Member.EB, Member.FD]

def HW04.yield_strength_keys : List Member := [Member.ABCD, Member.AC, Member.EB, Member.FD]

def HW04.weight_keys : List Member := [Member.ABCD, Member.AC, Member.EB, Member.FD]

def HW04.cost_keys : List Member := [Member.ABCD, Member.AC, Member.EB, Member.FD]

def HW04.points_keys : List Member := [Member.ABCD, Member.AC, Member.EB, Member.FD]

def HW04.fraction_keys : List Member := [Member.ABCD, Member.AC, Member.EB, Member.FD]

def HW04.max_force_keys : List Member := [Member.ABCD, Member.AC, Member.EB, Member.FD]

def HW04.max_Q_load_keys : List Member := [Member.ABCD, Member.AC, Member.EB, Member.FD]

def HW04.safety_factor_keys : List Member := [Member.ABCD, Member.AC, Member.EB, Member.FD]

def HW04.sensitivity_keys : List Member := [Member.ABCD, Member.AC, Member.EB, Member.FD]

/-- C8 as frozen is refuted: the length mapping of the two-constant variant
lists only ABCD and AC — EB and FD are not among its keys. -/
theorem C8_length_keys_counterexample :
    Member.EB ∉ HW02.length_keys ∧ Member.FD ∉ HW02.length_keys := by
  decide

/-- C8 (amended): all four members are keys of every per-property mapping of
both variants, with the single exception of the length mapping of the
two-constant variant, which holds only ABCD and AC. -/
theorem C8_all_members_in_every_mapping (m : Member) :
    (m ∈ HW02.diameter_keys ∧ m ∈ HW02.material_keys ∧ m ∈ HW02.points_keys ∧
     m ∈ HW02.fraction_keys ∧ m ∈ HW02.max_force_keys ∧ m ∈ HW02.max_Q_load_keys ∧
     m ∈ HW02.safety_factor_keys ∧ m ∈ HW02.sensitivity_keys) ∧
    (m ∈ HW04.length_keys ∧ m ∈ HW04.diameter_keys ∧ m ∈ HW04.material_keys ∧
     m ∈ HW04.yield_strength_keys ∧ m ∈ HW04.weight_keys ∧ m ∈ HW04.cost_keys ∧
     m ∈ HW04.points_keys ∧ m ∈ HW04.fraction_keys ∧ m ∈ HW04.max_force_keys ∧
     m ∈ HW04.max_Q_load_keys ∧ m ∈ HW04.safety_factor_keys ∧
     m ∈ HW04.sensitivity_keys) := by
  cases m <;> exact (by decide)

theorem C7_unrecognized_material_behavior_witness :
    HW02.u_strength "Adamantium" = HW02.aluminum_sigma_U ∧
    lookupRow [MaterialRow.mk "6061-T6" 0.0975 2.2 40] "Adamantium" = none :=
  C7_unrecognized_material_behavior "Adamantium" (by decide) _ (by
    intro r hr
    simp only [List.mem_singleton] at hr
    subst hr
    decide)

end Truss
